import Mathlib

/-!
Verification of the indicator/signal engine of `warroom_analytics`
(`src/logic/indicators.py`, class `QuantLogic`).

The candle columns (`open/high/low/close/volume/oi`) are modelled as lists of
rationals; derived indicator columns are lists of `PF`, a model of the IEEE
float values produced by pandas/numpy arithmetic on such columns: a rational,
one of the two infinities, or NaN.  Comparisons with NaN are false, division
by zero follows IEEE/numpy rules (`x/0 = ±inf` for `x ≠ 0`, `0/0 = NaN`), and
rolling windows with the pandas default `min_periods` yield NaN whenever the
window is incomplete or contains a NaN.
-/

namespace WarRoom

/-- Model of a pandas/numpy float64 cell value: NaN, ±infinity, or a finite
value (modelled exactly as a rational). -/
inductive PF where
  | nan : PF
  | inf : PF
  | ninf : PF
  | num : ℚ → PF
deriving DecidableEq, Repr

namespace PF

/-- IEEE negation. -/
def neg : PF → PF
  | nan => nan
  | inf => ninf
  | ninf => inf
  | num q => num (-q)

/-- IEEE addition: NaN absorbs, `inf + (-inf) = NaN`. -/
def add : PF → PF → PF
  | nan, _ => nan
  | _, nan => nan
  | inf, ninf => nan
  | ninf, inf => nan
  | inf, _ => inf
  | _, inf => inf
  | ninf, _ => ninf
  | _, ninf => ninf
  | num a, num b => num (a + b)

/-- IEEE subtraction. -/
def sub (a b : PF) : PF := add a (neg b)

/-- IEEE multiplication: NaN absorbs, `±inf * 0 = NaN`. -/
def mul : PF → PF → PF
  | nan, _ => nan
  | _, nan => nan
  | inf, inf => inf
  | inf, ninf => ninf
  | ninf, inf => ninf
  | ninf, ninf => inf
  | inf, num b => if 0 < b then inf else if b < 0 then ninf else nan
  | num a, inf => if 0 < a then inf else if a < 0 then ninf else nan
  | ninf, num b => if 0 < b then ninf else if b < 0 then inf else nan
  | num a, ninf => if 0 < a then ninf else if a < 0 then inf else nan
  | num a, num b => num (a * b)

/-- IEEE/numpy division: `x/0 = ±inf` for finite `x ≠ 0`, `0/0 = NaN`,
`x/±inf = 0` for finite `x`, `±inf/±inf = NaN`. -/
def div : PF → PF → PF
  | nan, _ => nan
  | _, nan => nan
  | inf, inf => nan
  | inf, ninf => nan
  | ninf, inf => nan
  | ninf, ninf => nan
  | inf, num b => if b < 0 then ninf else inf
  | ninf, num b => if b < 0 then inf else ninf
  | num _, inf => num 0
  | num _, ninf => num 0
  | num a, num b =>
    if b = 0 then (if 0 < a then inf else if a < 0 then ninf else nan)
    else num (a / b)

/-- IEEE strict order as a boolean: any comparison with NaN is false. -/
def lt : PF → PF → Bool
  | num a, num b => decide (a < b)
  | ninf, num _ => true
  | ninf, inf => true
  | num _, inf => true
  | _, _ => false

theorem lt_nan_left (a : PF) : lt nan a = false := by cases a <;> rfl

theorem lt_nan_right (a : PF) : lt a nan = false := by cases a <;> rfl

theorem add_nan_right (a : PF) : add a nan = nan := by cases a <;> rfl

theorem add_nan_left (a : PF) : add nan a = nan := by cases a <;> rfl

theorem mul_nan_left (a : PF) : mul nan a = nan := by cases a <;> rfl

theorem div_nan_left (a : PF) : div nan a = nan := by cases a <;> rfl

theorem div_zero_zero : div (num 0) (num 0) = nan := by
  show (if (0 : ℚ) = 0
      then (if (0 : ℚ) < 0 then inf else if (0 : ℚ) < 0 then ninf else nan)
      else num (0 / 0)) = nan
  rw [if_pos rfl, if_neg (lt_irrefl 0), if_neg (lt_irrefl 0)]

theorem div_pos_zero (g : ℚ) (hg : 0 < g) : div (num g) (num 0) = inf := by
  show (if (0 : ℚ) = 0
      then (if 0 < g then inf else if g < 0 then ninf else nan)
      else num (g / 0)) = inf
  rw [if_pos rfl, if_pos hg]

theorem mul_nan_right (a : PF) : mul a nan = nan := by cases a <;> rfl

end PF

/-- `Series.diff()`: first entry NaN, then pointwise differences. -/
def diffQ (xs : List ℚ) : List PF :=
  (List.range xs.length).map fun i =>
    if i = 0 then PF.nan else PF.num (xs.getD i 0 - xs.getD (i - 1) 0)

/-- Sum of a window of floats (NaN absorbs, matching a pandas rolling window
that contains a NaN observation and hence misses `min_periods`). -/
def pfWindowSum (l : List PF) : PF := l.foldr PF.add (PF.num 0)

/-- `Series.rolling(window=w).sum()` with the pandas default
`min_periods = w`: NaN until the window is full, and NaN whenever the
window contains a NaN. -/
def rollingSum (w : Nat) (xs : List PF) : List PF :=
  (List.range xs.length).map fun i =>
    if i + 1 < w then PF.nan else pfWindowSum ((xs.take (i + 1)).drop (i + 1 - w))

/-- `Series.rolling(window=w).mean()` (sum of the full window divided by `w`). -/
def rollingMean (w : Nat) (xs : List PF) : List PF :=
  (rollingSum w xs).map fun s => PF.div s (PF.num w)

/-- `Series.cumsum()` on a fully finite column. -/
def cumsum (l : List ℚ) : List ℚ :=
  (List.range l.length).map fun i => (l.take (i + 1)).sum

theorem pfWindowSum_of_nan_mem (l : List PF) (h : PF.nan ∈ l) :
    pfWindowSum l = PF.nan := by
  induction l with
  | nil => cases h
  | cons a t ih =>
    rcases List.mem_cons.mp h with rfl | ht
    · show PF.add PF.nan (pfWindowSum t) = PF.nan
      rw [PF.add_nan_left]
    · show PF.add a (pfWindowSum t) = PF.nan
      rw [ih ht, PF.add_nan_right]

theorem rollingSum_getElem? (w : Nat) (xs : List PF) (i : Nat) (hi : i < xs.length) :
    (rollingSum w xs)[i]? =
      some (if i + 1 < w then PF.nan
            else pfWindowSum ((xs.take (i + 1)).drop (i + 1 - w))) := by
  simp [rollingSum, List.getElem?_map, List.getElem?_range, hi]

theorem cumsum_getElem? (l : List ℚ) (i : Nat) (hi : i < l.length) :
    (cumsum l)[i]? = some ((l.take (i + 1)).sum) := by
  simp [cumsum, List.getElem?_map, List.getElem?_range, hi]

/-!
## `QuantLogic.calculate_cvd`

```python
df['taker_sell_vol'] = df['volume'] - df['taker_buy_vol']
df['delta'] = df['taker_buy_vol'] - df['taker_sell_vol']
df['cvd'] = df['delta'].cumsum()
```
Returns the three derived columns `(taker_sell_vol, delta, cvd)`.
-/
def calculate_cvd (volume takerBuy : List ℚ) : List ℚ × List ℚ × List ℚ :=
  let taker_sell_vol := List.zipWith (fun a b => a - b) volume takerBuy
  let delta := List.zipWith (fun a b => a - b) takerBuy taker_sell_vol
  let cvd := cumsum delta
  (taker_sell_vol, delta, cvd)

theorem calculate_cvd_sell_len (volume takerBuy : List ℚ)
    (h : takerBuy.length = volume.length) :
    (calculate_cvd volume takerBuy).1.length = volume.length := by
  simp [calculate_cvd, h]

theorem calculate_cvd_delta_len (volume takerBuy : List ℚ)
    (h : takerBuy.length = volume.length) :
    (calculate_cvd volume takerBuy).2.1.length = volume.length := by
  simp [calculate_cvd, h]

theorem calculate_cvd_sell_getD (volume takerBuy : List ℚ)
    (h : takerBuy.length = volume.length) (i : Nat) (hi : i < volume.length) :
    (calculate_cvd volume takerBuy).1.getD i 0
      = volume.getD i 0 - takerBuy.getD i 0 := by
  have hz : i < (List.zipWith (fun a b => a - b) volume takerBuy).length := by
    simp [h]; omega
  show (List.zipWith (fun a b => a - b) volume takerBuy).getD i 0 = _
  rw [List.getD_eq_getElem _ _ hz, List.getElem_zipWith,
    List.getD_eq_getElem _ _ hi, List.getD_eq_getElem _ _ (by omega : i < takerBuy.length)]

theorem calculate_cvd_delta_getD (volume takerBuy : List ℚ)
    (h : takerBuy.length = volume.length) (i : Nat) (hi : i < volume.length) :
    (calculate_cvd volume takerBuy).2.1.getD i 0
      = 2 * takerBuy.getD i 0 - volume.getD i 0 := by
  have hs := calculate_cvd_sell_getD volume takerBuy h i hi
  have hsl := calculate_cvd_sell_len volume takerBuy h
  have hz : i < (List.zipWith (fun a b => a - b) takerBuy
      (calculate_cvd volume takerBuy).1).length := by
    simp [calculate_cvd] at hsl ⊢; omega
  show (List.zipWith (fun a b => a - b) takerBuy (calculate_cvd volume takerBuy).1).getD i 0 = _
  rw [List.getD_eq_getElem _ _ hz, List.getElem_zipWith]
  have hb1 : i < takerBuy.length := by omega
  have hb2 : i < (calculate_cvd volume takerBuy).1.length := by omega
  rw [← List.getD_eq_getElem takerBuy 0 hb1,
    ← List.getD_eq_getElem (calculate_cvd volume takerBuy).1 0 hb2, hs]
  ring

/-- C8: after `calculate_cvd`, `taker_sell_vol[i] = volume[i] - taker_buy_vol[i]`,
`delta[i] = 2*taker_buy_vol[i] - volume[i]`, and for `i > 0` the cumulative sum
telescopes: `cvd[i] - cvd[i-1] = delta[i]`. -/
theorem C8_cvd_identities (volume takerBuy : List ℚ)
    (hlen : takerBuy.length = volume.length) (i : Nat) (hi : i < volume.length) :
    (calculate_cvd volume takerBuy).1.getD i 0
        = volume.getD i 0 - takerBuy.getD i 0
    ∧ (calculate_cvd volume takerBuy).2.1.getD i 0
        = 2 * takerBuy.getD i 0 - volume.getD i 0
    ∧ (0 < i →
        (calculate_cvd volume takerBuy).2.2.getD i 0
          - (calculate_cvd volume takerBuy).2.2.getD (i - 1) 0
        = (calculate_cvd volume takerBuy).2.1.getD i 0) := by
  refine ⟨calculate_cvd_sell_getD volume takerBuy hlen i hi,
    calculate_cvd_delta_getD volume takerBuy hlen i hi, fun hpos => ?_⟩
  have hdl := calculate_cvd_delta_len volume takerBuy hlen
  set delta := (calculate_cvd volume takerBuy).2.1 with hdelta
  have hcvd : (calculate_cvd volume takerBuy).2.2 = cumsum delta := rfl
  have hi' : i < delta.length := by omega
  have hi1 : i - 1 < delta.length := by omega
  have hcl : (cumsum delta).length = delta.length := by simp [cumsum]
  have e1 : (cumsum delta).getD i 0 = (delta.take (i + 1)).sum := by
    rw [List.getD_eq_getElem _ _ (by omega : i < (cumsum delta).length),
      ← Option.some_inj, ← List.getElem?_eq_getElem, cumsum_getElem? _ _ hi']
  have e2 : (cumsum delta).getD (i - 1) 0 = (delta.take i).sum := by
    rw [List.getD_eq_getElem _ _ (by omega : i - 1 < (cumsum delta).length),
      ← Option.some_inj, ← List.getElem?_eq_getElem, cumsum_getElem? _ _ hi1]
    have : i - 1 + 1 = i := by omega
    rw [this]
  have e3 : delta.take (i + 1) = delta.take i ++ (delta[i]?).toList := List.take_succ
  have e4 : delta[i]? = some (delta.getD i 0) := by
    rw [List.getElem?_eq_getElem hi', List.getD_eq_getElem _ _ hi']
  rw [hcvd, e1, e2, e3, e4]
  simp

/-- Witness for C8 at a concrete input: `volume = [10, 20]`,
`taker_buy_vol = [3, 5]`, row `i = 1`. -/
theorem C8_cvd_identities_witness :
    (calculate_cvd [10, 20] [3, 5]).1.getD 1 0 = (20 : ℚ) - 5
    ∧ (calculate_cvd [10, 20] [3, 5]).2.1.getD 1 0 = 2 * (5 : ℚ) - 20
    ∧ (0 < 1 →
        (calculate_cvd [10, 20] [3, 5]).2.2.getD 1 0
          - (calculate_cvd [10, 20] [3, 5]).2.2.getD 0 0
        = (calculate_cvd [10, 20] [3, 5]).2.1.getD 1 0) := by
  have h := C8_cvd_identities [10, 20] [3, 5] (by decide) 1 (by decide)
  simpa using h

/-!
## `QuantLogic.identify_oi_regime`

```python
df['price_change'] = df['close'].diff()
df['oi_change'] = df['oi'].diff()
conditions = [...]; choices = [...]
df['regime'] = np.select(conditions, choices, default='Neutral')
```
Row 0 has NaN diffs, so every condition is false there and `np.select`
falls through to the default label, which the `if i = 0` branch mirrors.
-/
def identify_oi_regime (close oi : List ℚ) : List String :=
  (List.range close.length).map fun i =>
    if i = 0 then "Neutral"
    else
      let pc := close.getD i 0 - close.getD (i - 1) 0
      let oc := oi.getD i 0 - oi.getD (i - 1) 0
      if 0 < pc ∧ 0 < oc then "Long Buildup 🟢"
      else if 0 < pc ∧ oc < 0 then "Short Covering 👻"
      else if pc < 0 ∧ 0 < oc then "Short Buildup 🔴"
      else if pc < 0 ∧ oc < 0 then "Long Liq 🩸"
      else "Neutral"

/-!
## `QuantLogic.detect_sfp`

```python
df['sfp_signal'] = None
rolling_min = df['low'].rolling(window=window).min().shift(1)
bull_sfp = (df['low'] < rolling_min) & (df['close'] > rolling_min)
rolling_max = df['high'].rolling(window=window).max().shift(1)
bear_sfp = (df['high'] > rolling_max) & (df['close'] < rolling_max)
df.loc[bull_sfp, 'sfp_signal'] = 'Bullish SFP 🚀'
df.loc[bear_sfp, 'sfp_signal'] = 'Bearish SFP 🔻'
```
`rolling(w).min().shift(1)` at row `i` is the min of rows `i-w .. i-1`,
defined only when `i ≥ w` (pandas default `min_periods`); comparisons with
the NaN warm-up rows are false.  The bearish assignment is applied second,
so a row matching both masks ends up with the bearish label.
-/
def sfpRollMin (low : List ℚ) (w i : Nat) : Option ℚ :=
  if w ≤ i then ((low.drop (i - w)).take w).min? else none

def sfpRollMax (high : List ℚ) (w i : Nat) : Option ℚ :=
  if w ≤ i then ((high.drop (i - w)).take w).max? else none

def bullSFP (low close : List ℚ) (w i : Nat) : Bool :=
  match sfpRollMin low w i with
  | some m => decide (low.getD i 0 < m) && decide (m < close.getD i 0)
  | none => false

def bearSFP (high close : List ℚ) (w i : Nat) : Bool :=
  match sfpRollMax high w i with
  | some m => decide (m < high.getD i 0) && decide (close.getD i 0 < m)
  | none => false

def detect_sfp (high low close : List ℚ) (w : Nat := 5) : List (Option String) :=
  (List.range close.length).map fun i =>
    if bearSFP high close w i then some "Bearish SFP 🔻"
    else if bullSFP low close w i then some "Bullish SFP 🚀"
    else none

theorem detect_sfp_getElem? (high low close : List ℚ) (w i : Nat)
    (hi : i < close.length) :
    (detect_sfp high low close w)[i]? =
      some (if bearSFP high close w i then some "Bearish SFP 🔻"
            else if bullSFP low close w i then some "Bullish SFP 🚀"
            else none) := by
  simp [detect_sfp, List.getElem?_map, List.getElem?_range, hi]

/-- C9: a row matching both the bullish and the bearish SFP mask receives the
bearish label: the bearish `.loc` assignment runs second and overwrites the
bullish one, leaving exactly one label on the row. -/
theorem C9_bearish_overwrites_bullish (high low close : List ℚ) (w i : Nat)
    (hi : i < close.length)
    (hbull : bullSFP low close w i = true)
    (hbear : bearSFP high close w i = true) :
    (detect_sfp high low close w)[i]? = some (some "Bearish SFP 🔻") := by
  rw [detect_sfp_getElem? high low close w i hi]
  simp [hbear]

/-- Witness for C9: a wide-range candle at row 5 that pierces both the prior
5-row low (closing back above it) and the prior 5-row high (closing back
below it); the emitted label is the bearish one. -/
theorem C9_bearish_overwrites_bullish_witness :
    (detect_sfp [20, 20, 20, 20, 20, 25] [10, 10, 10, 10, 10, 5]
        [15, 15, 15, 15, 15, 15] 5)[5]? = some (some "Bearish SFP 🔻") :=
  C9_bearish_overwrites_bullish [20, 20, 20, 20, 20, 25] [10, 10, 10, 10, 10, 5]
    [15, 15, 15, 15, 15, 15] 5 5 (by decide) (by decide) (by decide)

/-- C6 counterexample: a 10-row series satisfying the claim's hypotheses
`low[8] < min(low[0..7])` and `close[8] > min(low[0..7])` (the minimum over
all eight prior rows is 2, attained at row 0) on which row 8 nevertheless
receives no label at all: the code compares against the rolling minimum of
the prior five rows `low[3..7]` (which is 10), and `close[8] = 5 < 10`. -/
theorem C6_counterexample :
    ((([2, 10, 10, 10, 10, 10, 10, 10, 1, 5] : List ℚ).take 8).min? = some 2)
    ∧ (([2, 10, 10, 10, 10, 10, 10, 10, 1, 5] : List ℚ).getD 8 0 < 2)
    ∧ ((2 : ℚ) < ([15, 15, 15, 15, 15, 15, 15, 15, 5, 15] : List ℚ).getD 8 0)
    ∧ (detect_sfp [20, 20, 20, 20, 20, 20, 20, 20, 6, 20]
        [2, 10, 10, 10, 10, 10, 10, 10, 1, 5]
        [15, 15, 15, 15, 15, 15, 15, 15, 5, 15] 5)[8]? = some none := by
  decide

/-- C6 (amended): for every 10-row candle series in which `low[8]` is below
the minimum `m` of the prior five lows `low[3..7]` (the window the code
actually uses, not `low[0..7]`) while `close[8]` is above `m`, and row 8 does
not also satisfy the bearish SFP condition against the maximum `M` of
`high[3..7]` (which would overwrite the label), `detect_sfp` with its default
window 5 assigns row 8 the bullish SFP label. -/
theorem C6_amended_bullish_sfp (high low close : List ℚ) (m M : ℚ)
    (hlc : close.length = 10) (hll : low.length = 10) (hlh : high.length = 10)
    (hm : ((low.drop 3).take 5).min? = some m)
    (hM : ((high.drop 3).take 5).max? = some M)
    (h1 : low.getD 8 0 < m) (h2 : m < close.getD 8 0)
    (h3 : ¬(M < high.getD 8 0 ∧ close.getD 8 0 < M)) :
    (detect_sfp high low close 5)[8]? = some (some "Bullish SFP 🚀") := by
  have h85 : (8 : Nat) - 5 = 3 := by norm_num
  have hbull : bullSFP low close 5 8 = true := by
    unfold bullSFP sfpRollMin
    rw [if_pos (by omega : 5 ≤ 8), h85, hm]
    show (decide (low.getD 8 0 < m) && decide (m < close.getD 8 0)) = true
    rw [decide_eq_true h1, decide_eq_true h2]
    rfl
  have hbear : bearSFP high close 5 8 = false := by
    unfold bearSFP sfpRollMax
    rw [if_pos (by omega : 5 ≤ 8), h85, hM]
    show (decide (M < high.getD 8 0) && decide (close.getD 8 0 < M)) = false
    rcases not_and_or.mp h3 with hA | hB
    · rw [decide_eq_false hA, Bool.false_and]
    · rw [decide_eq_false hB, Bool.and_false]
  rw [detect_sfp_getElem? high low close 5 8 (by omega)]
  simp [hbear, hbull]

/-- Witness for the amended C6 at a concrete 10-row series: row 8 wicks below
the prior 5-row low minimum 10 and closes at 12 above it, without meeting the
bearish condition; the emitted label is the bullish one. -/
theorem C6_amended_bullish_sfp_witness :
    (detect_sfp [20, 20, 20, 20, 20, 20, 20, 20, 12, 20]
        [10, 10, 10, 10, 10, 10, 10, 10, 1, 10]
        [15, 15, 15, 15, 15, 15, 15, 15, 12, 15] 5)[8]? =
      some (some "Bullish SFP 🚀") :=
  C6_amended_bullish_sfp [20, 20, 20, 20, 20, 20, 20, 20, 12, 20]
    [10, 10, 10, 10, 10, 10, 10, 10, 1, 10]
    [15, 15, 15, 15, 15, 15, 15, 15, 12, 15] 10 20
    (by decide) (by decide) (by decide) (by decide) (by decide)
    (by decide) (by decide) (by decide)

/-!
## `QuantLogic.detect_divergences`

```python
def is_peak(series, idx, w):
    if idx < w or idx >= len(series) - w: return False
    return series[idx] == series[idx-w:idx+w+1].max()
...
last_idx = len(df) - 2
for ind in ['rsi', 'mfi', 'cmf', 'macd']:
    if ind not in df.columns: continue
    # scan range(last_idx, last_idx-20, -1) for the most recent price peak,
    # then range(peak-1, peak-50, -1) for the preceding one; emit
    # f"Bearish {ind.upper()} Divergence" on price HH + indicator LH;
    # symmetrically on troughs of 'low' for the bullish case.
```
The scans are modelled by `searchExtremum` with an explicit iteration count
(20 and 49 iterations, matching the two half-open Python ranges), returning
`-1` when no extremum is found, as in the code.  The four indicator columns
are passed as `Option`s, `none` standing for an absent column.
-/
def is_peak (s : List ℚ) (idx : Int) (w : Nat) : Bool :=
  if idx < (w : Int) ∨ (s.length : Int) - (w : Int) ≤ idx then false
  else
    decide (((s.drop (idx.toNat - w)).take (2 * w + 1)).max? = some (s.getD idx.toNat 0))

def is_trough (s : List ℚ) (idx : Int) (w : Nat) : Bool :=
  if idx < (w : Int) ∨ (s.length : Int) - (w : Int) ≤ idx then false
  else
    decide (((s.drop (idx.toNat - w)).take (2 * w + 1)).min? = some (s.getD idx.toNat 0))

/-- Backward scan `i, i-1, ..., i-(n-1)` for the first index satisfying `f`,
returning `-1` when the scan is exhausted (`f` is false at every negative
index, so `-1` is an unambiguous sentinel, as in the Python code). -/
def searchExtremum (f : Int → Bool) : Int → Nat → Int
  | _, 0 => -1
  | i, n + 1 => if f i then i else searchExtremum f (i - 1) n

/-- The body of the bearish check once the two peak indices `p` (most
recent) and `pp` (preceding) are known: price higher high and indicator
lower high emit the signal.  When `p = -1` the preceding search never runs
in the Python code; here `pp` is computed unconditionally but ignored in
that case, which yields the same output. -/
def divBearAt (high : List ℚ) (col : List PF) (name : String) (p pp : Int) :
    List String :=
  if p = -1 then []
  else if pp = -1 then []
  else if decide (high.getD pp.toNat 0 < high.getD p.toNat 0)
      && PF.lt (col.getD p.toNat PF.nan) (col.getD pp.toNat PF.nan) then
    ["Bearish " ++ name ++ " Divergence"]
  else []

def divBullAt (low : List ℚ) (col : List PF) (name : String) (p pp : Int) :
    List String :=
  if p = -1 then []
  else if pp = -1 then []
  else if decide (low.getD p.toNat 0 < low.getD pp.toNat 0)
      && PF.lt (col.getD pp.toNat PF.nan) (col.getD p.toNat PF.nan) then
    ["Bullish " ++ name ++ " Divergence"]
  else []

def divBear (high : List ℚ) (col : List PF) (name : String) (w : Nat)
    (lastIdx : Int) : List String :=
  divBearAt high col name
    (searchExtremum (fun j => is_peak high j w) lastIdx 20)
    (searchExtremum (fun j => is_peak high j w)
      ((searchExtremum (fun j => is_peak high j w) lastIdx 20) - 1) 49)

def divBull (low : List ℚ) (col : List PF) (name : String) (w : Nat)
    (lastIdx : Int) : List String :=
  divBullAt low col name
    (searchExtremum (fun j => is_trough low j w) lastIdx 20)
    (searchExtremum (fun j => is_trough low j w)
      ((searchExtremum (fun j => is_trough low j w) lastIdx 20) - 1) 49)

/-- One iteration of the `for ind in indicators` loop: an absent column
(`none`) is skipped, a present one contributes its bearish then its bullish
signal, in that order. -/
def perInd (high low : List ℚ) (name : String) (o : Option (List PF))
    (w : Nat) (lastIdx : Int) : List String :=
  match o with
  | none => []
  | some col => divBear high col name w lastIdx ++ divBull low col name w lastIdx

/-- The four oscillators are checked in the fixed order
`['rsi', 'mfi', 'cmf', 'macd']`; the hard-coded names are the results of
`ind.upper()` on those literals.  `last_idx = len(df) - 2`. -/
def detect_divergences (high low : List ℚ) (rsi mfi cmf macd : Option (List PF))
    (w : Nat := 5) : List String :=
  perInd high low "RSI" rsi w ((high.length : Int) - 2)
    ++ perInd high low "MFI" mfi w ((high.length : Int) - 2)
    ++ perInd high low "CMF" cmf w ((high.length : Int) - 2)
    ++ perInd high low "MACD" macd w ((high.length : Int) - 2)

theorem is_peak_false_of_guard (s : List ℚ) (idx : Int) (w : Nat)
    (h : idx < (w : Int) ∨ (s.length : Int) - (w : Int) ≤ idx) :
    is_peak s idx w = false := by
  unfold is_peak
  rw [if_pos h]

theorem searchExtremum_finds (f : Int → Bool) (t : Int) (ht : f t = true) :
    ∀ (n : Nat) (i : Int), t ≤ i → i < t + (n : Int) →
      (∀ j : Int, t < j → j ≤ i → f j = false) →
      searchExtremum f i n = t := by
  intro n
  induction n with
  | zero => intro i h1 h2 _; exfalso; omega
  | succ n ih =>
    intro i h1 h2 hnone
    by_cases hfi : f i = true
    · have hit : i = t := by
        by_contra hne
        have hlt : t < i := by omega
        rw [hnone i hlt le_rfl] at hfi
        exact Bool.false_ne_true hfi
      rw [show searchExtremum f i (n + 1)
            = if f i then i else searchExtremum f (i - 1) n from rfl, hfi]
      simp [hit]
    · have hfi' : f i = false := by revert hfi; cases f i <;> simp
      have hne : i ≠ t := by
        intro he
        rw [he, ht] at hfi'
        exact Bool.noConfusion hfi'
      rw [show searchExtremum f i (n + 1)
            = if f i then i else searchExtremum f (i - 1) n from rfl,
        hfi', if_neg (by simp)]
      refine ih (i - 1) (by omega) (by omega) ?_
      intro j hj1 hj2
      exact hnone j hj1 (by omega)

/-- The concrete 50-row price series of the C7 counterexample: window-5 local
maxima of `high` exactly at rows 10 (value 50) and 20 (value 60), then a
strictly rising tail so that no later row is a local maximum. -/
def c7high : List ℚ :=
  [10, 10, 10, 10, 10, 10, 10, 10, 10, 10,
   50, 10, 10, 10, 10, 10, 10, 10, 10, 10,
   60, 20, 21, 22, 23, 24, 25, 26, 27, 28,
   29, 30, 31, 32, 33, 34, 35, 36, 37, 38,
   39, 40, 41, 42, 43, 44, 45, 46, 47, 48]

def c7low : List ℚ := List.replicate 50 5

def c7rsi : List PF :=
  (List.range 50).map fun i =>
    if i = 10 then PF.num 70 else if i = 20 then PF.num 60 else PF.num 50

/-- C7 counterexample: a 50-row enriched series with window-5 high-peaks at
rows 10 and 20, `high[20] > high[10]` and `rsi[20] < rsi[10]`, whose last row
index 49 is ≥ 21 — yet `detect_divergences` emits no "Bearish RSI Divergence",
because its backward scan for the most recent price peak only covers the 20
rows `last_idx .. last_idx-19 = 47 .. 28` and never reaches row 20. -/
theorem C7_counterexample :
    is_peak c7high 10 5 = true
    ∧ is_peak c7high 20 5 = true
    ∧ c7high.getD 10 0 < c7high.getD 20 0
    ∧ PF.lt (c7rsi.getD 20 PF.nan) (c7rsi.getD 10 PF.nan) = true
    ∧ c7high.length = 50
    ∧ "Bearish RSI Divergence" ∉
        detect_divergences c7high c7low (some c7rsi) none none none 5 := by
  set_option maxRecDepth 100000 in decide

/-- C7 (amended): the emission is guaranteed only when the 20-row backward
scan that starts at `len - 2` can still reach row 20, i.e. when the series
has at most 41 rows (last row index at most 40), and when rows 10 and 20 are
the only window-5 local maxima of `high` (so the scans find exactly them).
Under those hypotheses, with `high[20] > high[10]` and `rsi[20] < rsi[10]`,
`detect_divergences` emits "Bearish RSI Divergence".  (Row 20 being a peak
forces at least 26 rows, so the last row index is ≥ 25 ≥ 21.) -/
theorem C7_amended_bearish_rsi_divergence (high low : List ℚ) (rsi : List PF)
    (mfi cmf macd : Option (List PF))
    (hlen : high.length ≤ 41)
    (hp10 : is_peak high 10 5 = true)
    (hp20 : is_peak high 20 5 = true)
    (honly : ∀ j : Nat, j < high.length → j ≠ 10 → j ≠ 20 →
      is_peak high (j : Int) 5 = false)
    (hhh : high.getD 10 0 < high.getD 20 0)
    (hrsi : PF.lt (rsi.getD 20 PF.nan) (rsi.getD 10 PF.nan) = true) :
    "Bearish RSI Divergence" ∈
      detect_divergences high low (some rsi) mfi cmf macd 5 := by
  have hn26 : 26 ≤ high.length := by
    by_contra hc
    have hg := is_peak_false_of_guard high 20 5 (by right; push_cast; omega)
    rw [hp20] at hg
    exact Bool.noConfusion hg
  have hfalse : ∀ j : Int, 20 < j → j ≤ (high.length : Int) - 2 →
      is_peak high j 5 = false := by
    intro j hj1 hj2
    have hj0 : 0 ≤ j := by omega
    have hjn : ((j.toNat : Int)) = j := Int.toNat_of_nonneg hj0
    rw [← hjn]
    exact honly j.toNat (by omega) (by omega) (by omega)
  have hsearch1 : searchExtremum (fun j => is_peak high j 5)
      ((high.length : Int) - 2) 20 = 20 :=
    searchExtremum_finds _ 20 hp20 20 _ (by omega) (by omega) hfalse
  have hfalse2 : ∀ j : Int, 10 < j → j ≤ (20 : Int) - 1 →
      is_peak high j 5 = false := by
    intro j hj1 hj2
    have hj0 : 0 ≤ j := by omega
    have hjn : ((j.toNat : Int)) = j := Int.toNat_of_nonneg hj0
    rw [← hjn]
    exact honly j.toNat (by omega) (by omega) (by omega)
  have hsearch2 : searchExtremum (fun j => is_peak high j 5)
      ((20 : Int) - 1) 49 = 10 :=
    searchExtremum_finds _ 10 hp10 49 _ (by omega) (by omega) hfalse2
  have hdiv : divBear high rsi "RSI" 5 ((high.length : Int) - 2)
      = ["Bearish RSI Divergence"] := by
    unfold divBear
    rw [hsearch1, hsearch2]
    unfold divBearAt
    rw [if_neg (by decide : ¬((20 : Int) = -1)),
      if_neg (by decide : ¬((10 : Int) = -1)),
      show (Int.toNat 20) = 20 from rfl, show (Int.toNat 10) = 10 from rfl,
      decide_eq_true hhh, hrsi]
    rfl
  have hmem : "Bearish RSI Divergence" ∈
      perInd high low "RSI" (some rsi) 5 ((high.length : Int) - 2) := by
    unfold perInd
    apply List.mem_append_left
    rw [hdiv]
    exact List.mem_singleton.mpr rfl
  unfold detect_divergences
  exact List.mem_append_left _ (List.mem_append_left _
    (List.mem_append_left _ hmem))

/-- The 26-row price series witnessing the amended C7: peaks exactly at rows
10 and 20, rising tail of five rows below the last peak. -/
def c7whigh : List ℚ :=
  [10, 10, 10, 10, 10, 10, 10, 10, 10, 10,
   50, 10, 10, 10, 10, 10, 10, 10, 10, 10,
   60, 20, 21, 22, 23, 24]

def c7wlow : List ℚ := List.replicate 26 5

def c7wrsi : List PF :=
  (List.range 26).map fun i =>
    if i = 10 then PF.num 70 else if i = 20 then PF.num 60 else PF.num 50

/-- Witness for the amended C7 at the concrete 26-row series. -/
theorem C7_amended_bearish_rsi_divergence_witness :
    "Bearish RSI Divergence" ∈
      detect_divergences c7whigh c7wlow (some c7wrsi) none none none 5 :=
  C7_amended_bearish_rsi_divergence c7whigh c7wlow c7wrsi none none none
    (by decide) (by decide) (by decide) (by decide) (by decide) (by decide)

theorem zipWith_getElem?_some {α β γ : Type} (f : α → β → γ) {a : List α}
    {b : List β} {i : Nat} {x : α} {y : β}
    (hx : a[i]? = some x) (hy : b[i]? = some y) :
    (List.zipWith f a b)[i]? = some (f x y) := by
  obtain ⟨ha, hxa⟩ := List.getElem?_eq_some.mp hx
  obtain ⟨hb, hyb⟩ := List.getElem?_eq_some.mp hy
  have hz : i < (List.zipWith f a b).length := by
    rw [List.length_zipWith]; omega
  rw [List.getElem?_eq_getElem hz, List.getElem_zipWith, hxa, hyb]

/-!
## `QuantLogic.calculate_rsi` and `QuantLogic.calculate_mfi`

```python
delta = df['close'].diff()
gain = (delta.where(delta > 0, 0)).rolling(window=period).mean()
loss = (-delta.where(delta < 0, 0)).rolling(window=period).mean()
rs = gain / loss
df['rsi'] = 100 - (100 / (1 + rs))
```
`delta.where(delta > 0, 0)` keeps `delta` where the condition holds and
writes 0 elsewhere; the NaN first diff fails both conditions and becomes 0.

```python
typical_price = (high + low + close) / 3
money_flow = typical_price * volume
tp_diff = typical_price.diff()
pos_flow[tp_diff > 0] = money_flow[...]; neg_flow[tp_diff < 0] = ...
pos_mf = pos_flow.rolling(period).sum(); neg_mf = ...
mfi_ratio = pos_mf / neg_mf
df['mfi'] = 100 - (100 / (1 + mfi_ratio))
```
-/
def rsiGain (close : List ℚ) (period : Nat := 14) : List PF :=
  rollingMean period ((diffQ close).map fun d =>
    if PF.lt (PF.num 0) d then d else PF.num 0)

def rsiLoss (close : List ℚ) (period : Nat := 14) : List PF :=
  rollingMean period ((diffQ close).map fun d =>
    if PF.lt d (PF.num 0) then PF.neg d else PF.num 0)

def calculate_rsi (close : List ℚ) (period : Nat := 14) : List PF :=
  List.zipWith
    (fun g l => PF.sub (PF.num 100)
      (PF.div (PF.num 100) (PF.add (PF.num 1) (PF.div g l))))
    (rsiGain close period) (rsiLoss close period)

def typicalPrice (high low close : List ℚ) : List ℚ :=
  (List.range close.length).map fun i =>
    (high.getD i 0 + low.getD i 0 + close.getD i 0) / 3

def mfiPosFlow (high low close volume : List ℚ) : List ℚ :=
  (List.range close.length).map fun i =>
    if PF.lt (PF.num 0) ((diffQ (typicalPrice high low close)).getD i PF.nan)
    then (typicalPrice high low close).getD i 0 * volume.getD i 0 else 0

def mfiNegFlow (high low close volume : List ℚ) : List ℚ :=
  (List.range close.length).map fun i =>
    if PF.lt ((diffQ (typicalPrice high low close)).getD i PF.nan) (PF.num 0)
    then (typicalPrice high low close).getD i 0 * volume.getD i 0 else 0

def mfiPosMF (high low close volume : List ℚ) (period : Nat := 14) : List PF :=
  rollingSum period ((mfiPosFlow high low close volume).map PF.num)

def mfiNegMF (high low close volume : List ℚ) (period : Nat := 14) : List PF :=
  rollingSum period ((mfiNegFlow high low close volume).map PF.num)

def calculate_mfi (high low close volume : List ℚ) (period : Nat := 14) : List PF :=
  List.zipWith
    (fun pm nm => PF.sub (PF.num 100)
      (PF.div (PF.num 100) (PF.add (PF.num 1) (PF.div pm nm))))
    (mfiPosMF high low close volume period) (mfiNegMF high low close volume period)

/-- Value of the shared `100 - 100/(1 + num/denom)` formula when the
denominator is exactly 0: following IEEE float semantics it is 100 when the
numerator is positive (`g/0 = inf`, `100/inf = 0`) and NaN when the numerator
is 0 as well (`0/0 = NaN` absorbs). -/
theorem ratioFormula_zero_denominator (g : ℚ) (hge : 0 ≤ g) :
    PF.sub (PF.num 100)
        (PF.div (PF.num 100) (PF.add (PF.num 1) (PF.div (PF.num g) (PF.num 0))))
      = if 0 < g then PF.num 100 else PF.nan := by
  rcases lt_or_eq_of_le hge with hpos | heq
  · rw [if_pos hpos, PF.div_pos_zero g hpos]
    rw [show PF.add (PF.num 1) PF.inf = PF.inf from rfl]
    rw [show PF.div (PF.num 100) PF.inf = PF.num 0 from rfl]
    show PF.num (100 + -0) = PF.num 100
    norm_num
  · rw [if_neg (by rw [← heq]; exact lt_irrefl 0)]
    rw [← heq, PF.div_zero_zero]
    rfl

unseal Rat.add Rat.mul Rat.inv Rat.sub in
/-- C4 counterexample: on the strictly increasing 14-row close series
`0,1,...,13` the rolling average loss at row 13 is exactly 0, yet
`calculate_rsi` yields the finite value 100 there (not NaN): pandas
evaluates `gain/0 = inf` for the positive gain and `100 - 100/(1+inf) = 100`. -/
theorem C4_counterexample :
    (rsiLoss [0, 1, 2, 3, 4, 5, 6, 7, 8, 9, 10, 11, 12, 13] 14)[13]?
        = some (PF.num 0)
    ∧ (calculate_rsi [0, 1, 2, 3, 4, 5, 6, 7, 8, 9, 10, 11, 12, 13] 14)[13]?
        = some (PF.num 100)
    ∧ PF.num 100 ≠ PF.nan := by
  set_option maxRecDepth 100000 in decide

/-- C4 (amended): when the rolling average loss (resp. negative money flow)
over the 14-row window is exactly 0, the RSI (resp. MFI) at that row is NaN
only if the rolling average gain (resp. positive money flow) is also 0;
when the gain side is positive the division yields `inf` and the indicator
evaluates to the finite value 100.  In neither case does the code raise. -/
theorem C4_amended_zero_denominator :
    (∀ (close : List ℚ) (i : Nat) (g : ℚ),
      (rsiLoss close 14)[i]? = some (PF.num 0) →
      (rsiGain close 14)[i]? = some (PF.num g) → 0 ≤ g →
      (calculate_rsi close 14)[i]? = some (if 0 < g then PF.num 100 else PF.nan))
    ∧ (∀ (high low close volume : List ℚ) (i : Nat) (g : ℚ),
      (mfiNegMF high low close volume 14)[i]? = some (PF.num 0) →
      (mfiPosMF high low close volume 14)[i]? = some (PF.num g) → 0 ≤ g →
      (calculate_mfi high low close volume 14)[i]?
        = some (if 0 < g then PF.num 100 else PF.nan)) := by
  constructor
  · intro close i g hl hg hge
    unfold calculate_rsi
    rw [zipWith_getElem?_some _ hg hl]
    congr 1
    exact ratioFormula_zero_denominator g hge
  · intro high low close volume i g hn hp hge
    unfold calculate_mfi
    rw [zipWith_getElem?_some _ hp hn]
    congr 1
    exact ratioFormula_zero_denominator g hge

unseal Rat.add Rat.mul Rat.inv Rat.sub in
/-- Witness for the amended C4: the increasing close series `0..13` gives
`loss = 0`, `gain = 13/14 > 0` at row 13 and RSI exactly 100; the matching
MFI input (equal high/low/close `0..13`, unit volume) gives
`neg_mf = 0`, `pos_mf = 91 > 0` and MFI exactly 100. -/
theorem C4_amended_zero_denominator_witness :
    (calculate_rsi [0, 1, 2, 3, 4, 5, 6, 7, 8, 9, 10, 11, 12, 13] 14)[13]?
        = some (PF.num 100)
    ∧ (calculate_mfi [0, 1, 2, 3, 4, 5, 6, 7, 8, 9, 10, 11, 12, 13]
        [0, 1, 2, 3, 4, 5, 6, 7, 8, 9, 10, 11, 12, 13]
        [0, 1, 2, 3, 4, 5, 6, 7, 8, 9, 10, 11, 12, 13]
        [1, 1, 1, 1, 1, 1, 1, 1, 1, 1, 1, 1, 1, 1] 14)[13]?
        = some (PF.num 100) := by
  constructor
  · have h := C4_amended_zero_denominator.1
      [0, 1, 2, 3, 4, 5, 6, 7, 8, 9, 10, 11, 12, 13] 13 (13 / 14)
      (by set_option maxRecDepth 100000 in decide)
      (by set_option maxRecDepth 100000 in decide)
      (by decide)
    rwa [if_pos (by decide : (0 : ℚ) < 13 / 14)] at h
  · have h := C4_amended_zero_denominator.2
      [0, 1, 2, 3, 4, 5, 6, 7, 8, 9, 10, 11, 12, 13]
      [0, 1, 2, 3, 4, 5, 6, 7, 8, 9, 10, 11, 12, 13]
      [0, 1, 2, 3, 4, 5, 6, 7, 8, 9, 10, 11, 12, 13]
      [1, 1, 1, 1, 1, 1, 1, 1, 1, 1, 1, 1, 1, 1] 13 91
      (by set_option maxRecDepth 100000 in decide)
      (by set_option maxRecDepth 100000 in decide)
      (by decide)
    rwa [if_pos (by decide : (0 : ℚ) < 91)] at h

/-!
## `QuantLogic.calculate_cmf`

```python
mf_multiplier = ((close - low) - (high - close)) / (high - low)
mf_volume = mf_multiplier * df['volume']
df['cmf'] = mf_volume.rolling(period).sum() / volume.rolling(period).sum()
```
A `high == low` row gives `0/0 = NaN` for the multiplier (the candle
invariant forces `close` to coincide as well), and the NaN makes every
20-row rolling sum whose window contains that row NaN in turn.
-/
def cmfMFVolume (high low close volume : List ℚ) : List PF :=
  (List.range close.length).map fun i =>
    PF.mul
      (PF.div
        (PF.num ((close.getD i 0 - low.getD i 0) - (high.getD i 0 - close.getD i 0)))
        (PF.num (high.getD i 0 - low.getD i 0)))
      (PF.num (volume.getD i 0))

def calculate_cmf (high low close volume : List ℚ) (period : Nat := 20) : List PF :=
  List.zipWith PF.div
    (rollingSum period (cmfMFVolume high low close volume))
    (rollingSum period (volume.map PF.num))

unseal Rat.add Rat.mul Rat.inv Rat.sub in
/-- C5 counterexample: a 22-row series whose single degenerate row is row 20
(`high[20] = low[20] = close[20] = 1`, all other rows have `high = 2 ≠ 1 = low`).
The claim says the NaN stays confined to row 20, but `cmf[21]` — a row whose
own candle is non-degenerate and whose 20-row volume normalization is the
well-defined value 20 — is NaN as well, because its rolling window (rows
2..21) contains row 20's NaN money-flow term. -/
theorem C5_counterexample :
    (calculate_cmf
        [2, 2, 2, 2, 2, 2, 2, 2, 2, 2, 2, 2, 2, 2, 2, 2, 2, 2, 2, 2, 1, 2]
        [1, 1, 1, 1, 1, 1, 1, 1, 1, 1, 1, 1, 1, 1, 1, 1, 1, 1, 1, 1, 1, 1]
        [2, 2, 2, 2, 2, 2, 2, 2, 2, 2, 2, 2, 2, 2, 2, 2, 2, 2, 2, 2, 1, 2]
        [1, 1, 1, 1, 1, 1, 1, 1, 1, 1, 1, 1, 1, 1, 1, 1, 1, 1, 1, 1, 1, 1]
        20)[21]? = some PF.nan
    ∧ ([2, 2, 2, 2, 2, 2, 2, 2, 2, 2, 2, 2, 2, 2, 2, 2, 2, 2, 2, 2, 1, 2]
        : List ℚ).getD 21 0
      ≠ ([1, 1, 1, 1, 1, 1, 1, 1, 1, 1, 1, 1, 1, 1, 1, 1, 1, 1, 1, 1, 1, 1]
        : List ℚ).getD 21 0
    ∧ (∀ j : Nat, j < 22 → j ≠ 20 →
        ([2, 2, 2, 2, 2, 2, 2, 2, 2, 2, 2, 2, 2, 2, 2, 2, 2, 2, 2, 2, 1, 2]
          : List ℚ).getD j 0
        ≠ ([1, 1, 1, 1, 1, 1, 1, 1, 1, 1, 1, 1, 1, 1, 1, 1, 1, 1, 1, 1, 1, 1]
          : List ℚ).getD j 0)
    ∧ (rollingSum 20 (([1, 1, 1, 1, 1, 1, 1, 1, 1, 1, 1, 1, 1, 1, 1, 1, 1, 1,
        1, 1, 1, 1] : List ℚ).map PF.num))[21]? = some (PF.num 20) := by
  set_option maxRecDepth 100000 in decide

/-- C5 (amended): a row `k` with `high[k] = low[k]` (and hence, by the candle
invariant, `close[k]` equal to them) makes the money-flow multiplier NaN at
row `k`, and the NaN is NOT confined to that row: it propagates through the
rolling sum, so `cmf[i]` is NaN for every row `i` whose trailing 20-row
window contains row `k` (all `i` with `k ≤ i < k + 20` past warm-up), even
when row `i` itself is non-degenerate and its volume normalization succeeds. -/
theorem C5_amended_nan_propagates (high low close volume : List ℚ)
    (hh : high.length = close.length) (hl : low.length = close.length)
    (hv : volume.length = close.length)
    (i k : Nat) (hi : i < close.length) (hk : k ≤ i) (hk2 : i < k + 20)
    (hw : 19 ≤ i)
    (hdeg : high.getD k 0 = low.getD k 0) (hcl : close.getD k 0 = low.getD k 0) :
    (calculate_cmf high low close volume 20)[i]? = some PF.nan := by
  have hkc : k < close.length := by omega
  have hmv : (cmfMFVolume high low close volume)[k]? = some PF.nan := by
    have h1 : (cmfMFVolume high low close volume)[k]? =
        some (PF.mul
          (PF.div
            (PF.num ((close.getD k 0 - low.getD k 0)
              - (high.getD k 0 - close.getD k 0)))
            (PF.num (high.getD k 0 - low.getD k 0)))
          (PF.num (volume.getD k 0))) := by
      simp [cmfMFVolume, List.getElem?_map, List.getElem?_range, hkc]
    rw [h1, hdeg, hcl]
    rw [show (low.getD k 0 - low.getD k 0) - (low.getD k 0 - low.getD k 0)
        = (0 : ℚ) by ring]
    rw [show low.getD k 0 - low.getD k 0 = (0 : ℚ) by ring]
    rw [PF.div_zero_zero, PF.mul_nan_left]
  have hlen1 : (cmfMFVolume high low close volume).length = close.length := by
    simp [cmfMFVolume]
  have hnanmem : PF.nan ∈
      ((cmfMFVolume high low close volume).take (i + 1)).drop (i + 1 - 20) := by
    have h2 : (((cmfMFVolume high low close volume).take (i + 1)).drop
        (i + 1 - 20))[k - (i + 1 - 20)]? = some PF.nan := by
      rw [List.getElem?_drop]
      rw [show (i + 1 - 20) + (k - (i + 1 - 20)) = k by omega]
      rw [List.getElem?_take_of_lt (by omega : k < i + 1)]
      exact hmv
    obtain ⟨hb, he⟩ := List.getElem?_eq_some.mp h2
    exact he ▸ List.getElem_mem hb
  have hrs : (rollingSum 20 (cmfMFVolume high low close volume))[i]?
      = some PF.nan := by
    rw [rollingSum_getElem? 20 _ i (by rw [hlen1]; omega)]
    rw [if_neg (by omega : ¬(i + 1 < 20))]
    rw [pfWindowSum_of_nan_mem _ hnanmem]
  have hvs : (rollingSum 20 (volume.map PF.num))[i]? =
      some (if i + 1 < 20 then PF.nan
        else pfWindowSum (((volume.map PF.num).take (i + 1)).drop (i + 1 - 20))) :=
    rollingSum_getElem? 20 _ i (by simp [hv]; omega)
  unfold calculate_cmf
  rw [zipWith_getElem?_some _ hrs hvs]
  congr 1
  exact PF.div_nan_left _

/-- Witness for the amended C5: the 22-row series with its single degenerate
candle at row 20 makes `cmf[21]` NaN. -/
theorem C5_amended_nan_propagates_witness :
    (calculate_cmf
        [2, 2, 2, 2, 2, 2, 2, 2, 2, 2, 2, 2, 2, 2, 2, 2, 2, 2, 2, 2, 1, 2]
        [1, 1, 1, 1, 1, 1, 1, 1, 1, 1, 1, 1, 1, 1, 1, 1, 1, 1, 1, 1, 1, 1]
        [2, 2, 2, 2, 2, 2, 2, 2, 2, 2, 2, 2, 2, 2, 2, 2, 2, 2, 2, 2, 1, 2]
        [1, 1, 1, 1, 1, 1, 1, 1, 1, 1, 1, 1, 1, 1, 1, 1, 1, 1, 1, 1, 1, 1]
        20)[21]? = some PF.nan :=
  C5_amended_nan_propagates
    [2, 2, 2, 2, 2, 2, 2, 2, 2, 2, 2, 2, 2, 2, 2, 2, 2, 2, 2, 2, 1, 2]
    [1, 1, 1, 1, 1, 1, 1, 1, 1, 1, 1, 1, 1, 1, 1, 1, 1, 1, 1, 1, 1, 1]
    [2, 2, 2, 2, 2, 2, 2, 2, 2, 2, 2, 2, 2, 2, 2, 2, 2, 2, 2, 2, 1, 2]
    [1, 1, 1, 1, 1, 1, 1, 1, 1, 1, 1, 1, 1, 1, 1, 1, 1, 1, 1, 1, 1, 1]
    (by decide) (by decide) (by decide) 21 20 (by decide) (by decide)
    (by decide) (by decide) (by decide) (by decide)

/-!
## `QuantLogic.generate_technical_summary`

The aggregator reads the last row of the enriched frame, evaluates the seven
scoring rules in source order, sums the score, buckets it into a sentiment
tier plus a color, and deduplicates the signal list preserving first
occurrence.  Each rule is modelled by a function returning its emitted
signal list together with its score contribution so that the overall result
is their concatenation/sum exactly as the sequential Python code produces it.
-/

/-- Python's substring test `needle in hay` on character lists. -/
def hasSub (needle : List Char) : List Char → Bool
  | [] => needle == []
  | c :: t => needle.isPrefixOf (c :: t) || hasSub needle t

def strContains (hay needle : String) : Bool := hasSub needle.data hay.data

/-- Scoring of the divergence list:
`score += 2` for each signal containing "Bullish", `-= 2` for "Bearish". -/
def divScoreOf (divs : List String) : Int :=
  divs.foldl (fun acc d =>
    acc + (if strContains d "Bullish" then 2 else 0)
      + (if strContains d "Bearish" then -2 else 0)) 0

/-- `if last['close'] > last['vwap'] ... else ...` (the else branch also
catches NaN comparisons). -/
def vwapRule (closeL : ℚ) (vwapL : PF) : List String × Int :=
  if PF.lt vwapL (PF.num closeL) then (["Price > VWAP (Bullish Trend)"], 1)
  else (["Price < VWAP (Bearish Trend)"], -1)

def rsiRule (rsiL : PF) : List String × Int :=
  if PF.lt rsiL (PF.num 30) then (["RSI Oversold (Bullish Reversal Potential)"], 2)
  else if PF.lt (PF.num 70) rsiL then
    (["RSI Overbought (Bearish Reversal Potential)"], -2)
  else ([], 0)

def cmfRule (cmfL : PF) : List String × Int :=
  if PF.lt (PF.num (5 / 100)) cmfL then (["CMF Positive (Inflow)"], 1)
  else if PF.lt cmfL (PF.num (-5 / 100)) then (["CMF Negative (Outflow)"], -1)
  else ([], 0)

/-- `if last['macd'] > last['macd_signal'] ... else ...` (the else branch
also catches NaN comparisons). -/
def macdRule (macdL macdSignalL : PF) : List String × Int :=
  if PF.lt macdSignalL macdL then (["MACD Bullish Crossover"], 1)
  else (["MACD Bearish Crossover"], -1)

def bbRule (closeL : ℚ) (bbLowerL bbUpperL : PF) : List String × Int :=
  if PF.lt (PF.num closeL) bbLowerL then (["Price Below BB Lower (Oversold)"], 1)
  else if PF.lt bbUpperL (PF.num closeL) then
    (["Price Above BB Upper (Overbought)"], -1)
  else ([], 0)

def stochRule (kL dL : PF) : List String × Int :=
  if PF.lt kL (PF.num 20) && PF.lt dL kL then
    (["Stoch RSI Oversold & Crossing Up"], 1)
  else if PF.lt (PF.num 80) kL && PF.lt kL dL then
    (["Stoch RSI Overbought & Crossing Down"], -1)
  else ([], 0)

/-- The five sentiment tiers of the final `if/elif` ladder. -/
inductive Sentiment where
  | strongBullish : Sentiment
  | bullish : Sentiment
  | neutral : Sentiment
  | bearish : Sentiment
  | strongBearish : Sentiment
deriving DecidableEq, Repr

/-- The `if score >= 3 / elif score >= 1 / elif score <= -3 / elif score <= -1
/ else` ladder, in source order. -/
def scoreTier (score : Int) : Sentiment :=
  if 3 ≤ score then .strongBullish
  else if 1 ≤ score then .bullish
  else if score ≤ -3 then .strongBearish
  else if score ≤ -1 then .bearish
  else .neutral

/-- The sentiment string assigned in each branch of the ladder. -/
def sentimentString : Sentiment → String
  | .strongBullish => "STRONG BULLISH 🚀"
  | .bullish => "BULLISH 🟢"
  | .strongBearish => "STRONG BEARISH 🩸"
  | .bearish => "BEARISH 🔴"
  | .neutral => "NEUTRAL ⚖️"

/-- The color assigned in the same branch of the ladder. -/
def tierColor : Sentiment → String
  | .strongBullish => "green"
  | .bullish => "lightgreen"
  | .strongBearish => "red"
  | .bearish => "salmon"
  | .neutral => "gray"

/-- Order-preserving removal of exact-text duplicates. -/
def dedup (l : List String) : List String :=
  l.foldl (fun acc s => if s ∈ acc then acc else acc ++ [s]) []

/-- The enriched frame as read by `generate_technical_summary`: the candle
columns plus every derived column the summary dereferences (those must be
present or the Python would raise a `KeyError`); `mfi` is only touched by
the divergence detector's column check and may be absent. -/
structure Frame where
  high : List ℚ
  low : List ℚ
  close : List ℚ
  vwap : List PF
  rsi : List PF
  cmf : List PF
  macd : List PF
  macd_signal : List PF
  bb_lower : List PF
  bb_upper : List PF
  stoch_k : List PF
  stoch_d : List PF
  mfi : Option (List PF)

/-- `df.iloc[-1]` on a candle column. -/
def lastQ (xs : List ℚ) : ℚ := xs.getLastD 0

/-- `df.iloc[-1]` on a derived column. -/
def lastPF (xs : List PF) : PF := xs.getLastD PF.nan

/-- The result dictionary `{sentiment, score, signals, color}`. -/
structure Summary where
  sentiment : String
  score : Int
  signals : List String
  color : String
deriving DecidableEq, Repr

def generate_technical_summary (f : Frame) : Summary :=
  let divs := detect_divergences f.high f.low (some f.rsi) f.mfi (some f.cmf)
    (some f.macd) 5
  let r1 := vwapRule (lastQ f.close) (lastPF f.vwap)
  let r2 := rsiRule (lastPF f.rsi)
  let r3 := cmfRule (lastPF f.cmf)
  let r4 := macdRule (lastPF f.macd) (lastPF f.macd_signal)
  let r5 := bbRule (lastQ f.close) (lastPF f.bb_lower) (lastPF f.bb_upper)
  let r6 := stochRule (lastPF f.stoch_k) (lastPF f.stoch_d)
  let score := divScoreOf divs + r1.2 + r2.2 + r3.2 + r4.2 + r5.2 + r6.2
  { sentiment := sentimentString (scoreTier score)
    score := score
    signals := dedup (divs ++ r1.1 ++ r2.1 ++ r3.1 ++ r4.1 ++ r5.1 ++ r6.1)
    color := tierColor (scoreTier score) }

theorem scoreTier_cases (s : Int) :
    (scoreTier s = .strongBullish ↔ 3 ≤ s)
    ∧ (scoreTier s = .bullish ↔ 1 ≤ s ∧ s ≤ 2)
    ∧ (scoreTier s = .strongBearish ↔ s ≤ -3)
    ∧ (scoreTier s = .bearish ↔ -3 < s ∧ s ≤ -1)
    ∧ (scoreTier s = .neutral ↔ s = 0) := by
  unfold scoreTier
  split_ifs with h1 h2 h3 h4 <;>
    refine ⟨?_, ?_, ?_, ?_, ?_⟩ <;> simp_all <;> omega

theorem tierColor_inj (t : Sentiment) :
    (tierColor t = "green" ↔ t = .strongBullish)
    ∧ (tierColor t = "lightgreen" ↔ t = .bullish)
    ∧ (tierColor t = "red" ↔ t = .strongBearish)
    ∧ (tierColor t = "salmon" ↔ t = .bearish)
    ∧ (tierColor t = "gray" ↔ t = .neutral) := by
  cases t <;> refine ⟨?_, ?_, ?_, ?_, ?_⟩ <;> decide

theorem sentimentString_mem (t : Sentiment) :
    sentimentString t ∈ ["STRONG BULLISH 🚀", "BULLISH 🟢", "NEUTRAL ⚖️",
      "BEARISH 🔴", "STRONG BEARISH 🩸"] := by
  cases t <;> decide

theorem tierColor_mem (t : Sentiment) :
    tierColor t ∈ ["green", "lightgreen", "gray", "salmon", "red"] := by
  cases t <;> decide

/-- C3: the sentiment tier is the literal threshold ladder on the summed
score, tested in source order (`≥3`, else `≥1`, else `≤-3`, else `≤-1`,
else neutral); in particular score 2 is plain bullish, score -2 plain
bearish, and score 0 neutral.  The first conjunct ties the summary's
sentiment field to that ladder applied to its own score field. -/
theorem C3_sentiment_thresholds :
    (∀ f : Frame, (generate_technical_summary f).sentiment
      = sentimentString (scoreTier ((generate_technical_summary f).score)))
    ∧ (∀ s : Int,
        (scoreTier s = .strongBullish ↔ 3 ≤ s)
        ∧ (scoreTier s = .bullish ↔ 1 ≤ s ∧ s ≤ 2)
        ∧ (scoreTier s = .strongBearish ↔ s ≤ -3)
        ∧ (scoreTier s = .bearish ↔ -3 < s ∧ s ≤ -1)
        ∧ (scoreTier s = .neutral ↔ s = 0))
    ∧ scoreTier 2 = .bullish ∧ scoreTier (-2) = .bearish
    ∧ scoreTier 0 = .neutral :=
  ⟨fun _ => rfl, scoreTier_cases, by decide, by decide, by decide⟩

/-- C10: the color field is a function of the score alone, pairing
one-to-one with the sentiment tier: green iff score ≥ 3, lightgreen iff
1 ≤ score ≤ 2, red iff score ≤ -3, salmon iff -3 < score ≤ -1, gray
otherwise (i.e. exactly at score 0, the only remaining integer). -/
theorem C10_color_of_score :
    (∀ f : Frame, (generate_technical_summary f).color
      = tierColor (scoreTier ((generate_technical_summary f).score)))
    ∧ (∀ s : Int,
        (tierColor (scoreTier s) = "green" ↔ 3 ≤ s)
        ∧ (tierColor (scoreTier s) = "lightgreen" ↔ 1 ≤ s ∧ s ≤ 2)
        ∧ (tierColor (scoreTier s) = "red" ↔ s ≤ -3)
        ∧ (tierColor (scoreTier s) = "salmon" ↔ -3 < s ∧ s ≤ -1)
        ∧ (tierColor (scoreTier s) = "gray" ↔ s = 0))
    ∧ (∀ t : Sentiment,
        (tierColor t = "green" ↔ t = .strongBullish)
        ∧ (tierColor t = "lightgreen" ↔ t = .bullish)
        ∧ (tierColor t = "red" ↔ t = .strongBearish)
        ∧ (tierColor t = "salmon" ↔ t = .bearish)
        ∧ (tierColor t = "gray" ↔ t = .neutral)) := by
  refine ⟨fun _ => rfl, fun s => ?_, tierColor_inj⟩
  obtain ⟨c1, c2, c3, c4, c5⟩ := tierColor_inj (scoreTier s)
  obtain ⟨s1, s2, s3, s4, s5⟩ := scoreTier_cases s
  exact ⟨c1.trans s1, c2.trans s2, c3.trans s3, c4.trans s4, c5.trans s5⟩

unseal Rat.add Rat.mul Rat.inv Rat.sub in
/-- C2 counterexample: on the two-row series with rising close and rising
open interest the regime label at row 1 is the decorated string
`"Long Buildup 🟢"`, which is not string-identical to any member of the
spec's claimed plain label set. -/
theorem C2_counterexample :
    (identify_oi_regime [1, 2] [1, 2]).getD 1 "" = "Long Buildup 🟢"
    ∧ (identify_oi_regime [1, 2] [1, 2]).getD 1 "" ∉
        ["Long Buildup", "Short Covering", "Short Buildup",
          "Long Liquidation", "Neutral"] := by
  decide

/-- C2 (amended): the enumerated output labels are fixed finite string sets,
but the actual literals carry emoji decorations and, for the sentiment,
upper-casing, and the fourth regime label is abbreviated: regime values lie
in {"Long Buildup 🟢", "Short Covering 👻", "Short Buildup 🔴",
"Long Liq 🩸", "Neutral"}, sfp labels in {"Bullish SFP 🚀",
"Bearish SFP 🔻"} or absent, sentiments in {"STRONG BULLISH 🚀",
"BULLISH 🟢", "NEUTRAL ⚖️", "BEARISH 🔴", "STRONG BEARISH 🩸"}; only the
color tags match the claimed set {green, lightgreen, gray, salmon, red}
verbatim. -/
theorem C2_amended_label_sets :
    (∀ (close oi : List ℚ) (r : String), r ∈ identify_oi_regime close oi →
      r ∈ ["Long Buildup 🟢", "Short Covering 👻", "Short Buildup 🔴",
        "Long Liq 🩸", "Neutral"])
    ∧ (∀ (high low close : List ℚ) (w : Nat) (s : Option String),
      s ∈ detect_sfp high low close w →
      s = none ∨ s = some "Bullish SFP 🚀" ∨ s = some "Bearish SFP 🔻")
    ∧ (∀ f : Frame,
      (generate_technical_summary f).sentiment ∈
        ["STRONG BULLISH 🚀", "BULLISH 🟢", "NEUTRAL ⚖️", "BEARISH 🔴",
          "STRONG BEARISH 🩸"]
      ∧ (generate_technical_summary f).color ∈
        ["green", "lightgreen", "gray", "salmon", "red"]) := by
  refine ⟨?_, ?_, fun f => ⟨sentimentString_mem _, tierColor_mem _⟩⟩
  · intro close oi r hr
    unfold identify_oi_regime at hr
    rcases List.mem_map.mp hr with ⟨i, _, he⟩
    subst he
    simp only []
    split_ifs <;> decide
  · intro high low close w s hs
    unfold detect_sfp at hs
    rcases List.mem_map.mp hs with ⟨i, _, he⟩
    subst he
    try simp only []
    split_ifs <;> decide

unseal Rat.add Rat.mul Rat.inv Rat.sub in
/-- Witness for the amended C2, discharging the membership hypotheses at
concrete inputs: rising close and OI produce `"Long Buildup 🟢"`, which is
in the regime label set, and a one-row series produces an unlabeled sfp row. -/
theorem C2_amended_label_sets_witness :
    ("Long Buildup 🟢" ∈ ["Long Buildup 🟢", "Short Covering 👻",
      "Short Buildup 🔴", "Long Liq 🩸", "Neutral"])
    ∧ ((none : Option String) = none
      ∨ (none : Option String) = some "Bullish SFP 🚀"
      ∨ (none : Option String) = some "Bearish SFP 🔻") :=
  ⟨C2_amended_label_sets.1 [1, 2] [1, 2] "Long Buildup 🟢" (by decide),
    C2_amended_label_sets.2.1 [1] [1] [1] 5 none (by decide)⟩

/-- The one-row enriched frame of the C1 counterexample: NaN `vwap` and NaN
`macd_signal` on the last row, every other input defined and neutral. -/
def c1frame : Frame :=
  { high := [1], low := [1], close := [10]
    vwap := [PF.nan]
    rsi := [PF.num 50]
    cmf := [PF.num 0]
    macd := [PF.num 1]
    macd_signal := [PF.nan]
    bb_lower := [PF.num 0]
    bb_upper := [PF.num 100]
    stoch_k := [PF.num 50]
    stoch_d := [PF.num 50]
    mfi := none }

unseal Rat.add Rat.mul Rat.inv Rat.sub in
/-- C1 counterexample: with NaN `vwap` and NaN `macd_signal` on the last row
the summary does NOT skip the VWAP and MACD rules: both comparisons are
false, the `else` branches run, and the bearish variants of both signals are
emitted (each contributing -1). -/
theorem C1_counterexample :
    lastPF c1frame.vwap = PF.nan
    ∧ lastPF c1frame.macd_signal = PF.nan
    ∧ "Price < VWAP (Bearish Trend)" ∈ (generate_technical_summary c1frame).signals
    ∧ "MACD Bearish Crossover" ∈ (generate_technical_summary c1frame).signals
    ∧ (generate_technical_summary c1frame).score = -2 := by
  set_option maxRecDepth 100000 in decide

/-- C1 (amended): NaN handling is rule-dependent.  The rules written as
`if/elif` with no `else` skip on NaN: a NaN rsi, cmf, stoch_k or stoch_d
value, or NaN in both Bollinger bands, contributes no signal and no score.
The VWAP and MACD rules end in an `else`: when any of their inputs is NaN
the comparison is false and the bearish variant is emitted with score -1,
rather than the rule being skipped. -/
theorem C1_amended_nan_handling :
    (rsiRule PF.nan = ([], 0))
    ∧ (cmfRule PF.nan = ([], 0))
    ∧ (∀ c : ℚ, bbRule c PF.nan PF.nan = ([], 0))
    ∧ (∀ d : PF, stochRule PF.nan d = ([], 0))
    ∧ (∀ k : PF, stochRule k PF.nan = ([], 0))
    ∧ (∀ c : ℚ, vwapRule c PF.nan = (["Price < VWAP (Bearish Trend)"], -1))
    ∧ (∀ m : PF, macdRule PF.nan m = (["MACD Bearish Crossover"], -1))
    ∧ (∀ m : PF, macdRule m PF.nan = (["MACD Bearish Crossover"], -1)) := by
  refine ⟨?_, ?_, ?_, ?_, ?_, ?_, ?_, ?_⟩
  · simp [rsiRule, PF.lt_nan_left, PF.lt_nan_right]
  · simp [cmfRule, PF.lt_nan_left, PF.lt_nan_right]
  · intro c; simp [bbRule, PF.lt_nan_left, PF.lt_nan_right]
  · intro d; simp [stochRule, PF.lt_nan_left, PF.lt_nan_right]
  · intro k; simp [stochRule, PF.lt_nan_left, PF.lt_nan_right]
  · intro c; simp [vwapRule, PF.lt_nan_left]
  · intro m; simp [macdRule, PF.lt_nan_right]
  · intro m; simp [macdRule, PF.lt_nan_left]

end WarRoom
